import Mathlib

set_option maxRecDepth 8000

/-!
Shallow embedding of the data-validation engine of `my_toolbox`
(`src/data_validator.py`): a pandas `DataFrame` is modelled as a list of
named, dtype-tagged columns of values; each validation check of the source
is translated into a Lean function over that model, and the claims of the
specification are settled against those functions.
-/

namespace MyToolbox

/-- Cell value of a column.  `null` models NaN/None missing markers;
`unhashable` models an object (such as a Python list) on which pandas
hash-based operations like `value_counts` raise `TypeError`. -/
inductive Value where
  | null
  | int (i : ℤ)
  | real (q : ℚ)
  | str (s : String)
  | bool (b : Bool)
  | unhashable (id : ℕ)
  deriving DecidableEq, Repr

/-- Null test, as pandas `isna` on one cell. -/
def Value.isNull : Value → Bool
  | .null => true
  | _ => false

/-- Whether pandas can hash the value: `value_counts` raises on unhashable
objects and succeeds on everything else. -/
def Value.isHashable : Value → Bool
  | .unhashable _ => false
  | _ => true

/-- Numeric view of a cell, as pandas numeric coercion inside comparisons
and quantiles (booleans count as 0/1); non-numeric cells have none. -/
def Value.toQ : Value → Option ℚ
  | .int i => some (i : ℚ)
  | .real q => some q
  | .bool b => some (if b then 1 else 0)
  | _ => none

/-- One named column: its pandas dtype string (`str(s.dtype)`) and its
cells in row order. -/
structure Column where
  name : String
  dtype : String
  values : List Value
  deriving DecidableEq, Repr

/-- A DataFrame: ordered columns.  Row count is the common column length. -/
structure DataFrame where
  cols : List Column
  deriving DecidableEq, Repr

/-- Column names in order (`df.columns`). -/
def DataFrame.colNames (df : DataFrame) : List String := df.cols.map (·.name)

/-- Column lookup by name (`df[col]`). -/
def DataFrame.getCol (df : DataFrame) (c : String) : Option Column :=
  df.cols.find? (fun col => col.name = c)

/-- Whether a name is a column of the frame. -/
def DataFrame.hasCol (df : DataFrame) (c : String) : Bool := (df.getCol c).isSome

/-- Row count, `len(df)`: the length of the columns (0 for no columns). -/
def DataFrame.nRows (df : DataFrame) : ℕ :=
  match df.cols with
  | [] => 0
  | c :: _ => c.values.length

/-- Well-formedness: every column has the common row count. -/
def DataFrame.WF (df : DataFrame) : Prop :=
  ∀ c ∈ df.cols, c.values.length = df.nRows

/-- Distinct values of a list in first-seen order, as pandas
`Series.unique` / the grouping order of `value_counts`. -/
def dedupFS (l : List Value) : List Value :=
  l.foldl (fun acc v => if v ∈ acc then acc else acc ++ [v]) []

/-- Number of nulls in a column (`s.isna().sum()`). -/
def nullCount (c : Column) : ℕ := c.values.countP Value.isNull

/-- Non-null cells of a column (`s.dropna()`). -/
def dropna (c : Column) : List Value := c.values.filter (fun v => !v.isNull)

/-- Numeric cells of a column after dropping nulls: the series pandas
feeds to quantile/comparison operations on a numeric column. -/
def numericVals (c : Column) : List ℚ := c.values.filterMap Value.toQ

/-- IEEE float division of a count by a count: `none` models the
non-finite result pandas produces on division by zero (NaN for 0/0). -/
def floatDivNat (c n : ℕ) : Option ℚ :=
  if n = 0 then none else some ((c : ℚ) / (n : ℚ))

/-- Python `round(x, 4)`: round half to even at the fourth decimal. -/
def roundHalfEven (x : ℚ) : ℤ :=
  if x - (x.floor : ℚ) < 1/2 then x.floor
  else if (1:ℚ)/2 < x - (x.floor : ℚ) then x.floor + 1
  else if x.floor % 2 = 0 then x.floor else x.floor + 1

/-- Python `round(x, 4)` on the rational model of a float. -/
def round4 (x : ℚ) : ℚ := (roundHalfEven (x * 10000) : ℚ) / 10000

/-- Linear-interpolation quantile of an ascending-sorted list, the
`interpolation="linear"` rule of `Series.quantile`: with
`h = q*(n-1)`, the value is `x[floor h] + (h - floor h) * (x[floor h + 1] - x[floor h])`,
clamping the upper index at the last element. -/
def quantileLinear (l : List ℚ) (q : ℚ) : ℚ :=
  let h : ℚ := q * ((l.length : ℚ) - 1)
  let lo : ℕ := h.floor.toNat
  let a : ℚ := l.getD lo 0
  let b : ℚ := l.getD (lo + 1) a
  a + (h - (lo : ℚ)) * (b - a)

/-- `Series.quantile q`: sort the values, then interpolate linearly. -/
def seriesQuantile (s : List ℚ) (q : ℚ) : ℚ :=
  quantileLinear (s.insertionSort (· ≤ ·)) q

/-- Linear interpolation of a list at a fractional position `h`: the value
`quantileLinear` computes once the position `q * (n - 1)` is abstracted. -/
def interpAt (l : List ℚ) (h : ℚ) : ℚ :=
  l.getD h.floor.toNat 0 +
    (h - (h.floor.toNat : ℚ)) *
      (l.getD (h.floor.toNat + 1) (l.getD h.floor.toNat 0) - l.getD h.floor.toNat 0)

/-- Embedding of `_iqr_bounds` (src/data_validator.py lines 11-15):
`(q1 - factor*iqr, q3 + factor*iqr)` with `iqr = q3 - q1`. -/
def iqrBounds (s : List ℚ) (factor : ℚ) : ℚ × ℚ :=
  let q1 := seriesQuantile s (1/4)
  let q3 := seriesQuantile s (3/4)
  let iqr := q3 - q1
  (q1 - factor * iqr, q3 + factor * iqr)

/-- Per-column schema descriptor produced by `infer_schema`. -/
structure SchemaEntry where
  dtype : String
  null_count : ℕ
  null_pct : ℚ
  unique : ℕ
  sample_values : List Value
  deriving DecidableEq, Repr

/-- Descriptor of one column, as the loop body of `infer_schema`
(src/data_validator.py lines 24-37): `null_pct = float(nulls)/n if n
else 0.0`, then `round(null_pct, 4)`; `unique = s.nunique(dropna=True)`;
`sample_values = s.dropna().unique()[:k]`. -/
def colSchema (n k : ℕ) (c : Column) : SchemaEntry :=
  let nulls := nullCount c
  let null_pct : ℚ := if n = 0 then 0 else (nulls : ℚ) / (n : ℚ)
  { dtype := c.dtype
    null_count := nulls
    null_pct := round4 null_pct
    unique := (dedupFS (dropna c)).length
    sample_values := (dedupFS (dropna c)).take k }

/-- Embedding of `infer_schema` (src/data_validator.py lines 17-38). -/
def infer_schema (df : DataFrame) (sample_values : ℕ) : List (String × SchemaEntry) :=
  df.cols.map (fun c => (c.name, colSchema df.nRows sample_values c))

/-- One row of the `per_column` table of `missing_summary`.  The
percentage is an IEEE float: `none` is the NaN that `missing_count / n`
produces when `n = 0`. -/
structure MissingEntry where
  missing_count : ℕ
  missing_pct : Option ℚ
  deriving DecidableEq, Repr

/-- Report shape of `missing_summary`. -/
structure MissingReport where
  rows : ℕ
  columns : ℕ
  per_column : List (String × MissingEntry)
  deriving DecidableEq, Repr

/-- Embedding of `DataValidator.missing_summary` (src/data_validator.py
lines 46-54): per column, `missing_count = isna().sum()` and
`missing_pct = missing_count / n` with no guard on `n = 0` (pandas float
division, NaN on 0/0). -/
def DataValidator.missing_summary (df : DataFrame) : MissingReport :=
  { rows := df.nRows
    columns := df.cols.length
    per_column := df.cols.map (fun c =>
      (c.name, { missing_count := nullCount c
                 missing_pct := floatDivNat (nullCount c) df.nRows })) }

/-- Values of row `i` restricted to the named columns: the comparison key
of `df.duplicated(subset=cols)`.  Pandas treats two nulls in the same
position as equal, which plain `Value` equality reproduces. -/
def rowKey (df : DataFrame) (cols : List String) (i : ℕ) : List Value :=
  cols.map (fun c => (((df.getCol c).getD ⟨"", "", []⟩).values).getD i .null)

/-- Row `i` is duplicate-flagged (`keep="first"`): some earlier row has
the same values on the compared columns. -/
def isDup (df : DataFrame) (cols : List String) (i : ℕ) : Bool :=
  (List.range i).any (fun j => rowKey df cols j == rowKey df cols i)

/-- Indices flagged by the duplicate mask, in row order. -/
def dupIndices (df : DataFrame) (cols : List String) : List ℕ :=
  (List.range df.nRows).filter (isDup df cols)

/-- Full row `i` as a name-to-value record (`to_dict(orient="records")`). -/
def fullRow (df : DataFrame) (i : ℕ) : List (String × Value) :=
  df.cols.map (fun c => (c.name, c.values.getD i .null))

/-- Report shape of `duplicates`. -/
structure DupReport where
  duplicate_count : ℕ
  sample_rows : List (List (String × Value))
  deriving DecidableEq, Repr

/-- Duplicate report over a fixed list of compared columns: the count of
flagged rows and the first 5 flagged rows in full (empty when the count
is 0), as `df[dup_mask].head(5)`. -/
def dupReportOn (df : DataFrame) (cols : List String) : DupReport :=
  let idx := dupIndices df cols
  { duplicate_count := idx.length
    sample_rows := if idx.length = 0 then [] else (idx.take 5).map (fullRow df) }

/-- Embedding of `DataValidator.duplicates` (src/data_validator.py lines
56-64).  With no subset, `df.duplicated()` compares all columns and never
raises; with a subset, pandas raises `KeyError` when a named column is
missing from the frame, modelled as an `Except.error`. -/
def DataValidator.duplicates (df : DataFrame) :
    Option (List String) → Except String DupReport
  | none => .ok (dupReportOn df df.colNames)
  | some s =>
      if s.all df.hasCol then .ok (dupReportOn df s)
      else .error ("column not found")

/-- Actual dtype of a named column, `actual.get(c)`: `none` when the
column is absent from the frame. -/
def actualDtype (df : DataFrame) (c : String) : Option String :=
  ((df.cols.map (fun col => (col.name, col.dtype))).find? (fun p => p.1 = c)).map (·.2)

/-- Report shape of `dtype_issues`: the mismatch entries record the
expected label and the actual dtype (`none` when the column is absent). -/
structure DtypeReport where
  actual_dtypes : List (String × String)
  dtype_mismatches : List (String × (String × Option String))
  deriving DecidableEq, Repr

/-- Embedding of `DataValidator.dtype_issues` (src/data_validator.py
lines 66-76): for each expected entry `(c, exp)` it compares
`actual.get(c)` (an optional dtype) with `exp` and records a mismatch
whenever they differ; `if expected:` makes both the omitted and the empty
mapping produce no mismatches. -/
def DataValidator.dtype_issues (df : DataFrame)
    (expected : Option (List (String × String))) : DtypeReport :=
  { actual_dtypes := df.cols.map (fun c => (c.name, c.dtype))
    dtype_mismatches :=
      match expected with
      | none => []
      | some exp =>
          (exp.filter (fun p => actualDtype df p.1 ≠ some p.2)).map
            (fun p => (p.1, (p.2, actualDtype df p.1))) }

/-- Result recorded per column by the cardinality report: a normal entry
or the error marker written by the `except` branch. -/
inductive CardResult where
  | ok (unique : ℕ) (top_values : List (Value × ℕ))
  | err (msg : String)
  deriving DecidableEq, Repr

/-- Stable descending insertion by count: an element moves ahead only of
strictly smaller counts, so ties keep first-seen order. -/
def insertByCount (x : Value × ℕ) : List (Value × ℕ) → List (Value × ℕ)
  | [] => [x]
  | y :: ys => if y.2 < x.2 then x :: y :: ys else y :: insertByCount x ys

/-- Stable sort by descending count. -/
def sortByCountDesc : List (Value × ℕ) → List (Value × ℕ)
  | [] => []
  | x :: xs => insertByCount x (sortByCountDesc xs)

/-- `Series.value_counts(dropna=False)`: frequencies of every distinct
value (nulls included) sorted by descending count, ties in first-seen
order; raises on unhashable cells, modelled as an error. -/
def valueCountsE (l : List Value) : Except String (List (Value × ℕ)) :=
  if l.all Value.isHashable then
    .ok (sortByCountDesc ((dedupFS l).map (fun v => (v, l.count v))))
  else .error ("unhashable")

/-- Body of the per-column `try`/`except` of `cardinality_report`. -/
def colCardinality (top_n : ℕ) (c : Column) : CardResult :=
  match valueCountsE c.values with
  | .ok vc => .ok vc.length (vc.take top_n)
  | .error _ => .err ("could not compute value_counts")

/-- Embedding of `DataValidator.cardinality_report` (src/data_validator.py
lines 78-90): each column is processed inside its own `try`/`except`, so a
failing column records an error entry and the loop continues. -/
def DataValidator.cardinality_report (df : DataFrame) (top_n : ℕ) :
    List (String × CardResult) :=
  df.cols.map (fun c => (c.name, colCardinality top_n c))

/-- Entry of the outlier summary: `{"n": 0}` for an all-null column, else
the full statistics record. -/
inductive OutlierEntry where
  | empty
  | stats (n : ℕ) (low_bound high_bound : ℚ) (below above : ℕ)
  deriving DecidableEq, Repr

/-- Reported low bound (0 when absent), for stating bound properties. -/
def OutlierEntry.lowD : OutlierEntry → ℚ
  | .empty => 0
  | .stats _ l _ _ _ => l

/-- Reported high bound (0 when absent). -/
def OutlierEntry.highD : OutlierEntry → ℚ
  | .empty => 0
  | .stats _ _ h _ _ => h

/-- Reported below count (0 when absent). -/
def OutlierEntry.belowD : OutlierEntry → ℕ
  | .empty => 0
  | .stats _ _ _ b _ => b

/-- Reported above count (0 when absent). -/
def OutlierEntry.aboveD : OutlierEntry → ℕ
  | .empty => 0
  | .stats _ _ _ _ a => a

/-- Loop body of `outlier_summary` on one column: drop nulls; `{"n": 0}`
when empty, otherwise the `_iqr_bounds` bounds and the strict
`(s < low).sum()` / `(s > high).sum()` counts. -/
def colOutlier (c : Column) (factor : ℚ) : OutlierEntry :=
  let s := numericVals c
  if s.isEmpty then .empty
  else
    let bounds := iqrBounds s factor
    .stats s.length bounds.1 bounds.2
      (s.countP (fun x => decide (x < bounds.1)))
      (s.countP (fun x => decide (x > bounds.2)))

/-- Whether a dtype string is selected by `select_dtypes(include=["number"])`. -/
def isNumericDtype (s : String) : Bool :=
  s = "int64" || s = "float64" || s = "int32" || s = "float32"

/-- Auto-detected numeric columns of the frame. -/
def autoNumericCols (df : DataFrame) : List String :=
  (df.cols.filter (fun c => isNumericDtype c.dtype)).map (·.name)

/-- Embedding of `DataValidator.outlier_summary` (src/data_validator.py
lines 92-106).  With an explicit column list, `df[col]` raises `KeyError`
on an unknown name and the whole call fails; auto-detected columns always
exist, so that path never fails. -/
def DataValidator.outlier_summary (df : DataFrame)
    (numeric_cols : Option (List String)) (factor : ℚ) :
    Except String (List (String × OutlierEntry)) :=
  let cols := match numeric_cols with
    | none => autoNumericCols df
    | some l => l
  if cols.all df.hasCol then
    .ok (cols.map (fun name =>
      (name, colOutlier ((df.getCol name).getD ⟨"", "", []⟩) factor)))
  else .error ("column not found")

/-- Combined report returned by `validate`. -/
structure Report where
  missing : MissingReport
  dups : DupReport
  dtypes : DtypeReport
  cardinality : List (String × CardResult)
  outliers : List (String × OutlierEntry)
  deriving DecidableEq, Repr

/-- State-passing view of `missing_summary`: the pandas calls it makes
(`isna`, `sum`, `assign`) allocate fresh objects and never mutate the
frame, so the frame comes back unchanged. -/
def missing_summaryS (df : DataFrame) : MissingReport × DataFrame :=
  (DataValidator.missing_summary df, df)

/-- State-passing view of the subset-free `duplicates` call of `validate`
(`df.duplicated()` is non-mutating). -/
def duplicatesS (df : DataFrame) : DupReport × DataFrame :=
  (dupReportOn df df.colNames, df)

/-- State-passing view of `dtype_issues` (reads `df.dtypes` only). -/
def dtype_issuesS (df : DataFrame) (expected : Option (List (String × String))) :
    DtypeReport × DataFrame :=
  (DataValidator.dtype_issues df expected, df)

/-- State-passing view of `cardinality_report` (`value_counts` is
non-mutating). -/
def cardinalityS (df : DataFrame) : List (String × CardResult) × DataFrame :=
  (DataValidator.cardinality_report df 5, df)

/-- State-passing view of the auto-detect `outlier_summary` call of
`validate` (`dropna` and the comparisons allocate fresh series). -/
def outlierS (df : DataFrame) : List (String × OutlierEntry) × DataFrame :=
  ((autoNumericCols df).map (fun name =>
      (name, colOutlier ((df.getCol name).getD ⟨"", "", []⟩) (3/2))), df)

/-- Embedding of `DataValidator.validate` (src/data_validator.py lines
108-117) with the DataFrame threaded through the five sub-checks in the
order Python evaluates the dict literal, returning the report and the
frame as the checks leave it. -/
def validateS (df : DataFrame) (expected : Option (List (String × String))) :
    Report × DataFrame :=
  let m := missing_summaryS df
  let d := duplicatesS m.2
  let t := dtype_issuesS d.2 expected
  let c := cardinalityS t.2
  let o := outlierS c.2
  ({ missing := m.1, dups := d.1, dtypes := t.1, cardinality := c.1, outliers := o.1 }, o.2)

/-- The report of `validate`. -/
def DataValidator.validate (df : DataFrame)
    (expected : Option (List (String × String))) : Report :=
  (validateS df expected).1

/-- Evaluation of the dict literal of `validate` when each of the five
calls may raise: Python evaluates the values left to right and the first
exception propagates out of `validate`, which has no `try`/`except`. -/
def validateCombine {α β γ δ ε : Type} (m : Except String α) (d : Except String β)
    (t : Except String γ) (c : Except String δ) (o : Except String ε) :
    Except String (α × β × γ × δ × ε) :=
  m.bind (fun mv => d.bind (fun dv => t.bind (fun tv =>
    c.bind (fun cv => o.map (fun ov => (mv, dv, tv, cv, ov))))))

/-- Whether an exceptional outcome occurred. -/
def isErrorE {α : Type} : Except String α → Bool
  | .error _ => true
  | .ok _ => false

/-- Column with one integer row. -/
def colA : Column := ⟨"a", "int64", [.int 1]⟩

/-- Frame with one integer column and one row. -/
def dfA : DataFrame := ⟨[colA]⟩

/-- Frame with one integer column and zero rows. -/
def dfEmptyRows : DataFrame := ⟨[⟨"a", "int64", []⟩]⟩

/-- Float column holding a null and two numbers. -/
def colNull : Column := ⟨"a", "float64", [.null, .real 1, .real 2]⟩

/-- Frame with one float column holding a null and two numbers. -/
def dfNull : DataFrame := ⟨[colNull]⟩

/-- The numeric column of the specification scenario. -/
def colNum : Column :=
  ⟨"x", "int64", [.int 10, .int 12, .int 12, .int 13, .int 200]⟩

/-- Column holding one unhashable object. -/
def colU : Column := ⟨"a", "object", [.unhashable 0]⟩

/-- Frame with one unhashable-object column and one integer column. -/
def dfU : DataFrame :=
  ⟨[colU, ⟨"b", "int64", [.int 7]⟩]⟩

/-! Proof-layer helpers: none of these change the embedded definitions. -/

/-- Batteries floor on ℚ agrees with the Mathlib floor. -/
theorem ratFloor_eq_intFloor (a : ℚ) : a.floor = ⌊a⌋ :=
  (Rat.floor_def' a).trans Rat.floor_def.symm

/-- In a sorted list, earlier entries are no larger, stated on `getD` with
arbitrary defaults as long as the later index is in range. -/
theorem getD_le_getD_of_sorted {l : List ℚ} (hs : l.Sorted (· ≤ ·))
    {i j : ℕ} (hij : i ≤ j) (hj : j < l.length) (d e : ℚ) :
    l.getD i d ≤ l.getD j e := by
  have hi : i < l.length := lt_of_le_of_lt hij hj
  rw [List.getD_eq_get l d hi, List.getD_eq_get l e hj]
  exact hs.rel_get_of_le (by exact hij)

/-- The clamped upper interpolation point is at least the lower one. -/
theorem getD_succ_clamped_ge {l : List ℚ} (hs : l.Sorted (· ≤ ·)) (i : ℕ) :
    l.getD i 0 ≤ l.getD (i + 1) (l.getD i 0) := by
  rcases lt_or_ge (i + 1) l.length with hlt | hge
  · exact getD_le_getD_of_sorted hs (Nat.le_succ i) hlt 0 (l.getD i 0)
  · rw [List.getD_eq_default _ _ hge]

/-- `quantileLinear` is interpolation at position `q * (n - 1)`. -/
theorem quantileLinear_eq_interpAt (l : List ℚ) (q : ℚ) :
    quantileLinear l q = interpAt l (q * ((l.length : ℚ) - 1)) := rfl

/-- Interpolation stays at or above the lower sample point. -/
theorem interpAt_ge {l : List ℚ} (hs : l.Sorted (· ≤ ·)) {h : ℚ} (h0 : 0 ≤ h) :
    l.getD h.floor.toNat 0 ≤ interpAt l h := by
  have hfl0 : (0 : ℤ) ≤ ⌊h⌋ := Int.floor_nonneg.mpr h0
  have hcast : ((h.floor.toNat : ℕ) : ℚ) = ((⌊h⌋ : ℤ) : ℚ) := by
    rw [ratFloor_eq_intFloor]
    exact_mod_cast congrArg (fun z : ℤ => (z : ℚ)) (Int.toNat_of_nonneg hfl0)
  have hfr : 0 ≤ h - (h.floor.toNat : ℚ) := by
    rw [hcast]
    have := Int.floor_le h
    linarith
  have hab := getD_succ_clamped_ge hs h.floor.toNat
  have := mul_nonneg hfr (sub_nonneg.mpr hab)
  unfold interpAt
  linarith

/-- Interpolation stays at or below the clamped upper sample point. -/
theorem interpAt_le {l : List ℚ} (hs : l.Sorted (· ≤ ·)) {h : ℚ} (h0 : 0 ≤ h) :
    interpAt l h ≤ l.getD (h.floor.toNat + 1) (l.getD h.floor.toNat 0) := by
  have hfl0 : (0 : ℤ) ≤ ⌊h⌋ := Int.floor_nonneg.mpr h0
  have hcast : ((h.floor.toNat : ℕ) : ℚ) = ((⌊h⌋ : ℤ) : ℚ) := by
    rw [ratFloor_eq_intFloor]
    exact_mod_cast congrArg (fun z : ℤ => (z : ℚ)) (Int.toNat_of_nonneg hfl0)
  have hfr1 : h - (h.floor.toNat : ℚ) ≤ 1 := by
    rw [hcast]
    have := Int.lt_floor_add_one h
    push_cast at this ⊢
    linarith
  have hab := getD_succ_clamped_ge hs h.floor.toNat
  have hmul := mul_le_mul_of_nonneg_right hfr1 (sub_nonneg.mpr hab)
  unfold interpAt
  linarith

/-- Monotonicity of linear interpolation over a sorted list for positions
inside `[0, n-1]`. -/
theorem interpAt_mono {l : List ℚ} (hs : l.Sorted (· ≤ ·))
    {h h' : ℚ} (h0 : 0 ≤ h) (hhh : h ≤ h') (hub : h' ≤ (l.length : ℚ) - 1) :
    interpAt l h ≤ interpAt l h' := by
  have h0' : 0 ≤ h' := le_trans h0 hhh
  have hfl0 : (0 : ℤ) ≤ ⌊h⌋ := Int.floor_nonneg.mpr h0
  have hfl0' : (0 : ℤ) ≤ ⌊h'⌋ := Int.floor_nonneg.mpr h0'
  have hlen1 : 1 ≤ l.length := by
    by_contra hcon
    have hl0 : l.length = 0 := by omega
    rw [hl0] at hub
    norm_num at hub
    linarith
  have hfl_ub : ⌊h'⌋ ≤ (l.length : ℤ) - 1 := by
    have h1 : ⌊h'⌋ ≤ ⌊((l.length : ℚ) - 1)⌋ := Int.floor_mono hub
    have h2 : ((l.length : ℚ) - 1) = (((l.length : ℤ) - 1 : ℤ) : ℚ) := by push_cast; ring
    rw [h2, Int.floor_intCast] at h1
    exact h1
  have hlo'_lt : (h'.floor.toNat) < l.length := by
    rw [ratFloor_eq_intFloor]
    omega
  have hmono : ⌊h⌋ ≤ ⌊h'⌋ := Int.floor_mono hhh
  rcases eq_or_lt_of_le hmono with heq | hlt
  · have hlo_eq : h.floor.toNat = h'.floor.toNat := by
      rw [ratFloor_eq_intFloor, ratFloor_eq_intFloor, heq]
    unfold interpAt
    rw [hlo_eq]
    have hab := getD_succ_clamped_ge hs h'.floor.toNat
    have hd : 0 ≤ l.getD (h'.floor.toNat + 1) (l.getD h'.floor.toNat 0) -
        l.getD h'.floor.toNat 0 := sub_nonneg.mpr hab
    have := mul_le_mul_of_nonneg_right
      (sub_le_sub_right hhh ((h'.floor.toNat : ℕ) : ℚ)) hd
    linarith
  · have hstep : h.floor.toNat + 1 ≤ h'.floor.toNat := by
      rw [ratFloor_eq_intFloor, ratFloor_eq_intFloor]
      omega
    have h1 : interpAt l h ≤ l.getD (h.floor.toNat + 1) (l.getD h.floor.toNat 0) :=
      interpAt_le hs h0
    have h2 : l.getD (h.floor.toNat + 1) (l.getD h.floor.toNat 0) ≤
        l.getD (h'.floor.toNat) 0 :=
      getD_le_getD_of_sorted hs hstep hlo'_lt _ _
    have h3 : l.getD (h'.floor.toNat) 0 ≤ interpAt l h' := interpAt_ge hs h0'
    linarith

/-- The sorted copy of the series that `seriesQuantile` interpolates. -/
theorem seriesQuantile_mono {s : List ℚ} (hne : s ≠ [])
    {q q' : ℚ} (hq0 : 0 ≤ q) (hqq : q ≤ q') (hq1 : q' ≤ 1) :
    seriesQuantile s q ≤ seriesQuantile s q' := by
  have hs : (s.insertionSort (· ≤ ·)).Sorted (· ≤ ·) :=
    List.sorted_insertionSort (· ≤ ·) s
  have hlen : (s.insertionSort (· ≤ ·)).length = s.length :=
    (List.perm_insertionSort (· ≤ ·) s).length_eq
  have hlen1 : 1 ≤ s.length := by
    cases s with
    | nil => exact absurd rfl hne
    | cons a t => exact Nat.succ_le_succ (Nat.zero_le _)
  have hnn : (0 : ℚ) ≤ ((s.insertionSort (· ≤ ·)).length : ℚ) - 1 := by
    rw [hlen]
    have : (1 : ℚ) ≤ (s.length : ℚ) := by exact_mod_cast hlen1
    linarith
  rw [seriesQuantile, seriesQuantile, quantileLinear_eq_interpAt,
    quantileLinear_eq_interpAt]
  exact interpAt_mono hs (mul_nonneg hq0 hnn)
    (mul_le_mul_of_nonneg_right hqq hnn)
    (by
      have := mul_le_mul_of_nonneg_right hq1 hnn
      linarith [this])

/-- Lower quartile at or below upper quartile on a nonempty series. -/
theorem q1_le_q3 {s : List ℚ} (hne : s ≠ []) :
    seriesQuantile s (1/4) ≤ seriesQuantile s (3/4) :=
  seriesQuantile_mono hne (by norm_num) (by norm_num) (by norm_num)

/-- Counting with a weaker Boolean predicate counts at least as much. -/
theorem countP_mono_of_imp {p q : ℚ → Bool} (h : ∀ a, p a = true → q a = true) :
    ∀ l : List ℚ, l.countP p ≤ l.countP q := by
  intro l
  induction l with
  | nil => exact Nat.le_refl _
  | cons x xs ih =>
      rw [List.countP_cons, List.countP_cons]
      have hle : (if p x = true then 1 else 0) ≤ (if q x = true then 1 else 0) := by
        by_cases hp : p x = true
        · rw [if_pos hp, if_pos (h x hp)]
        · rw [if_neg hp]
          exact Nat.zero_le _
      exact Nat.add_le_add ih hle

/-- Rounding zero gives zero. -/
theorem round4_zero : round4 0 = 0 := by
  have h0 : (0 : ℚ) * 10000 = 0 := zero_mul _
  rw [round4, h0]
  have hf : (0 : ℚ).floor = 0 := by
    rw [ratFloor_eq_intFloor]
    exact Int.floor_zero
  rw [roundHalfEven, hf]
  norm_num

/-- Rounding a third at four decimals gives 0.3333, not a third. -/
theorem round4_third : round4 (1/3) = 3333/10000 := by
  have hx : (1 : ℚ)/3 * 10000 = 10000/3 := by ring
  have hf : ((10000 : ℚ)/3).floor = 3333 := by
    rw [ratFloor_eq_intFloor]
    rw [Int.floor_eq_iff]
    norm_num
  rw [round4, hx, roundHalfEven, hf]
  norm_num

/-- On a column with at least one numeric value, the outlier entry is the
full statistics record built from the `_iqr_bounds` bounds and the strict
comparison counts. -/
theorem colOutlier_stats_eq (c : Column) (f : ℚ) (hne : numericVals c ≠ []) :
    colOutlier c f = OutlierEntry.stats (numericVals c).length
      (iqrBounds (numericVals c) f).1 (iqrBounds (numericVals c) f).2
      ((numericVals c).countP (fun x => decide (x < (iqrBounds (numericVals c) f).1)))
      ((numericVals c).countP (fun x => decide (x > (iqrBounds (numericVals c) f).2))) := by
  have hempty : (numericVals c).isEmpty = false := by
    cases hx : numericVals c with
    | nil => exact absurd hx hne
    | cons a t => rfl
  rw [colOutlier]
  simp only [hempty, Bool.false_eq_true, if_false]

/-- The two `_iqr_bounds` components, written out. -/
theorem iqrBounds_eq (s : List ℚ) (f : ℚ) :
    iqrBounds s f =
      (seriesQuantile s (1/4) - f * (seriesQuantile s (3/4) - seriesQuantile s (1/4)),
       seriesQuantile s (3/4) + f * (seriesQuantile s (3/4) - seriesQuantile s (1/4))) := rfl

/-! Claims. -/

/-- Claim C1: on a Dataset with zero rows, `missing_summary` does not
return 0.0 for a column's `missing_pct`: the unguarded division
`missing_count / n` is 0/0, an IEEE NaN (modelled `none`), which also
violates `0 ≤ missing_pct ≤ 1`.  Evaluation of the embedded code at the
failing input, a one-column frame with no rows. -/
theorem C1_missing_pct_nan_on_empty :
    DataValidator.missing_summary dfEmptyRows =
      { rows := 0, columns := 1,
        per_column := [("a", { missing_count := 0, missing_pct := none })] } ∧
    (none : Option ℚ) ≠ some 0 :=
  ⟨by with_unfolding_all decide, by simp⟩

/-- Claim C2, counterexample: a column named in the ExpectedSchema but
absent from the Dataset does appear in `dtype_mismatches` (with actual
dtype `none`), contradicting the claim that only columns present in both
inputs are compared. -/
theorem C2_counterexample_absent_column_reported :
    (DataValidator.dtype_issues dfA (some [("b", "int64")])).dtype_mismatches
      = [("b", ("int64", none))] ∧ dfA.hasCol "b" = false :=
  ⟨by decide, by decide⟩

/-- Claim C2, amended: `dtype_mismatches` contains exactly the
ExpectedSchema entries whose actual dtype — `none` when the column is
absent from the Dataset — differs from the expected label, so absent
expected columns always appear; it is empty when the ExpectedSchema is
omitted. -/
theorem C2_dtype_mismatch_characterization (df : DataFrame)
    (exp : List (String × String)) (c e : String) (a : Option String) :
    ((c, (e, a)) ∈ (DataValidator.dtype_issues df (some exp)).dtype_mismatches ↔
      ((c, e) ∈ exp ∧ a = actualDtype df c ∧ actualDtype df c ≠ some e)) ∧
    (DataValidator.dtype_issues df none).dtype_mismatches = [] := by
  constructor
  · simp only [DataValidator.dtype_issues, List.mem_map, List.mem_filter]
    constructor
    · rintro ⟨⟨c1, e1⟩, ⟨hmem, hne⟩, heq⟩
      simp only [Prod.mk.injEq] at heq
      obtain ⟨hc, he, ha⟩ := heq
      subst hc
      subst he
      subst ha
      refine ⟨hmem, rfl, ?_⟩
      simpa using hne
    · rintro ⟨hmem, ha, hne⟩
      subst ha
      exact ⟨(c, e), ⟨hmem, by simpa using hne⟩, rfl⟩
  · rfl

/-- Claim C3, counterexample: when the duplicates sub-check of the
report battery raises (here, the error "boom") while all four other
sub-checks succeed on a concrete frame, `validate`'s dict-literal
evaluation propagates the error: no combined report is returned, so the
other results are not included and no error marker is recorded. -/
theorem C3_counterexample_error_propagates :
    validateCombine (Except.ok (DataValidator.missing_summary dfA))
      (Except.error ("boom") : Except String DupReport)
      (Except.ok (DataValidator.dtype_issues dfA none))
      (Except.ok (DataValidator.cardinality_report dfA 5))
      (Except.ok (outlierS dfA).1) = Except.error ("boom") := rfl

/-- Claim C3, amended: `validate` has no per-check isolation — if any of
the five sub-checks raises, the whole call raises and no combined report
(neither the other sub-checks' results nor an error marker) is
produced. -/
theorem C3_validate_error_propagation {α β γ δ ε : Type}
    (m : Except String α) (d : Except String β) (t : Except String γ)
    (c : Except String δ) (o : Except String ε)
    (h : (isErrorE m || isErrorE d || isErrorE t || isErrorE c || isErrorE o) = true) :
    isErrorE (validateCombine m d t c o) = true := by
  cases m with
  | error e => rfl
  | ok mv =>
      cases d with
      | error e => rfl
      | ok dv =>
          cases t with
          | error e => rfl
          | ok tv =>
              cases c with
              | error e => rfl
              | ok cv =>
                  cases o with
                  | error e => rfl
                  | ok ov => simp [isErrorE] at h

/-- Witness for C3: one failing sub-check among four successes makes the
combined call fail. -/
theorem C3_witness :
    (isErrorE (Except.ok (0 : ℕ)) || isErrorE (Except.error ("boom") : Except String ℕ) ||
      isErrorE (Except.ok (0 : ℕ)) || isErrorE (Except.ok (0 : ℕ)) ||
      isErrorE (Except.ok (0 : ℕ))) = true ∧
    isErrorE (validateCombine (Except.ok (0 : ℕ))
      (Except.error ("boom") : Except String ℕ) (Except.ok (0 : ℕ))
      (Except.ok (0 : ℕ)) (Except.ok (0 : ℕ))) = true :=
  ⟨rfl, C3_validate_error_propagation (Except.ok 0) (Except.error ("boom"))
    (Except.ok 0) (Except.ok 0) (Except.ok 0) rfl⟩

/-- Claim C4: `duplicates` with a subset naming a column absent from the
Dataset fails the whole call with the column-not-found error, never
returning a normal duplicate report. -/
theorem C4_duplicates_unknown_subset_fails (df : DataFrame) (s : List String)
    (c : String) (hc : c ∈ s) (habs : df.hasCol c = false) :
    DataValidator.duplicates df (some s) = Except.error ("column not found") := by
  have hall : s.all df.hasCol = false := by
    cases hx : s.all df.hasCol with
    | false => rfl
    | true =>
        rw [List.all_eq_true] at hx
        rw [hx c hc] at habs
        cases habs
  simp [DataValidator.duplicates, hall]

/-- Witness for C4: a one-column frame and the unknown subset name b. -/
theorem C4_witness :
    ("b" ∈ ["b"]) ∧ dfA.hasCol "b" = false ∧
    DataValidator.duplicates dfA (some ["b"]) = Except.error ("column not found") :=
  ⟨by simp, by decide,
    C4_duplicates_unknown_subset_fails dfA ["b"] "b" (by simp) (by decide)⟩

/-- Claim C5: on a column with non-null count n > 0 and any factor, the
outlier entry reports exactly `low = q1 - factor*iqr`,
`high = q3 + factor*iqr` for the linearly interpolated quartiles of the
series, with `below`/`above` counting strict inequalities only; and on
the scenario column `[10, 12, 12, 13, 200]` with factor 1.5 the entry is
`n = 5, low = 10.5, high = 14.5, below = 1, above = 1`. -/
theorem C5_outlier_formulas (c : Column) (f : ℚ) (hne : numericVals c ≠ []) :
    colOutlier c f = OutlierEntry.stats (numericVals c).length
      (seriesQuantile (numericVals c) (1/4) -
        f * (seriesQuantile (numericVals c) (3/4) - seriesQuantile (numericVals c) (1/4)))
      (seriesQuantile (numericVals c) (3/4) +
        f * (seriesQuantile (numericVals c) (3/4) - seriesQuantile (numericVals c) (1/4)))
      ((numericVals c).countP (fun x => decide (x <
        seriesQuantile (numericVals c) (1/4) -
          f * (seriesQuantile (numericVals c) (3/4) - seriesQuantile (numericVals c) (1/4)))))
      ((numericVals c).countP (fun x => decide (x >
        seriesQuantile (numericVals c) (3/4) +
          f * (seriesQuantile (numericVals c) (3/4) - seriesQuantile (numericVals c) (1/4))))) ∧
    colOutlier colNum (3/2) = OutlierEntry.stats 5 (21/2) (29/2) 1 1 := by
  constructor
  · rw [colOutlier_stats_eq c f hne, iqrBounds_eq]
  · with_unfolding_all decide

/-- Witness for C5: the scenario column evaluated through the claim. -/
theorem C5_witness : colOutlier colNum (3/2) = OutlierEntry.stats 5 (21/2) (29/2) 1 1 :=
  (C5_outlier_formulas colNum (3/2) (by decide)).2

/-- Claim C6, counterexample: the per-column error marker the code
records is the string "could not compute value_counts", not the
"unsupported column kind" marker stated in the claim; the rest of the
analyzer is unaffected by the failing column. -/
theorem C6_counterexample_error_message :
    DataValidator.cardinality_report dfU 5 =
      [("a", CardResult.err ("could not compute value_counts")),
       ("b", CardResult.ok 1 [(Value.int 7, 1)])] ∧
    "could not compute value_counts" ≠ "unsupported column kind" :=
  ⟨by with_unfolding_all decide, by decide⟩

/-- Claim C6, amended: every column of the frame gets its own entry
computed from that column alone, so a failing column records the error
marker "could not compute value_counts" while every other column keeps
its normal entry — a per-column failure never aborts the analyzer. -/
theorem C6_cardinality_isolation (df : DataFrame) (top_n : ℕ) (c : Column)
    (hc : c ∈ df.cols) :
    (c.name, colCardinality top_n c) ∈ DataValidator.cardinality_report df top_n ∧
    (c.values.all Value.isHashable = false →
      colCardinality top_n c = CardResult.err ("could not compute value_counts")) := by
  constructor
  · exact List.mem_map.mpr ⟨c, hc, rfl⟩
  · intro hfail
    simp [colCardinality, valueCountsE, hfail]

/-- Witness for C6: the unhashable column of the two-column frame. -/
theorem C6_witness :
    (colU ∈ dfU.cols) ∧
    ((colU.name, colCardinality 5 colU) ∈ DataValidator.cardinality_report dfU 5 ∧
      (colU.values.all Value.isHashable = false →
        colCardinality 5 colU = CardResult.err ("could not compute value_counts"))) :=
  ⟨by decide, C6_cardinality_isolation dfU 5 colU (by decide)⟩

/-- Claim C7: for a column with non-null count n > 0 and factors
0 ≤ f' ≤ f, the reported bounds satisfy `low_bound ≤ high_bound`, and
decreasing the factor from f to f' can only increase the `below` and
`above` counts. -/
theorem C7_bounds_and_monotonicity (c : Column) (f f' : ℚ)
    (hne : numericVals c ≠ []) (hf0 : 0 ≤ f') (hff : f' ≤ f) :
    (colOutlier c f).lowD ≤ (colOutlier c f).highD ∧
    (colOutlier c f).belowD ≤ (colOutlier c f').belowD ∧
    (colOutlier c f).aboveD ≤ (colOutlier c f').aboveD := by
  have hf : 0 ≤ f := le_trans hf0 hff
  have hq : seriesQuantile (numericVals c) (1/4) ≤ seriesQuantile (numericVals c) (3/4) :=
    q1_le_q3 hne
  have hiqr : 0 ≤ seriesQuantile (numericVals c) (3/4) - seriesQuantile (numericVals c) (1/4) :=
    sub_nonneg.mpr hq
  have hfi : f' * (seriesQuantile (numericVals c) (3/4) - seriesQuantile (numericVals c) (1/4)) ≤
      f * (seriesQuantile (numericVals c) (3/4) - seriesQuantile (numericVals c) (1/4)) :=
    mul_le_mul_of_nonneg_right hff hiqr
  rw [colOutlier_stats_eq c f hne, colOutlier_stats_eq c f' hne, iqrBounds_eq, iqrBounds_eq]
  refine ⟨?_, ?_, ?_⟩
  · show seriesQuantile (numericVals c) (1/4) - _ ≤ _
    have := mul_nonneg hf hiqr
    dsimp only [OutlierEntry.lowD, OutlierEntry.highD]
    linarith
  · dsimp only [OutlierEntry.belowD]
    apply countP_mono_of_imp
    intro a ha
    rw [decide_eq_true_iff] at ha ⊢
    linarith
  · dsimp only [OutlierEntry.aboveD]
    apply countP_mono_of_imp
    intro a ha
    rw [decide_eq_true_iff] at ha ⊢
    linarith

/-- Witness for C7: the scenario column with factors 1.5 and 1. -/
theorem C7_witness :
    (colOutlier colNum (3/2)).lowD ≤ (colOutlier colNum (3/2)).highD ∧
    (colOutlier colNum (3/2)).belowD ≤ (colOutlier colNum 1).belowD ∧
    (colOutlier colNum (3/2)).aboveD ≤ (colOutlier colNum 1).aboveD :=
  C7_bounds_and_monotonicity colNum (3/2) 1 (by decide) (by norm_num) (by norm_num)

/-- Claim C8: `validate` leaves the Dataset unchanged (its pandas calls
are all non-mutating, modelled by threading the frame through the five
sub-checks) and a second run on the resulting frame produces the
identical report. -/
theorem C8_validate_pure_and_idempotent (df : DataFrame)
    (expected : Option (List (String × String))) :
    (validateS df expected).2 = df ∧
    (validateS (validateS df expected).2 expected).1 = (validateS df expected).1 :=
  ⟨rfl, rfl⟩

/-- Claim C9, counterexample: on a 3-row column with one null,
`infer_schema` reports `null_pct = 0.3333` — the ratio rounded to four
decimal places — which is not exactly `null_count / N = 1/3`. -/
theorem C9_counterexample_rounded :
    (infer_schema dfNull 5).map (fun p => p.2.null_pct) = [3333/10000] ∧
    (3333/10000 : ℚ) ≠ (nullCount colNull : ℚ) / (dfNull.nRows : ℚ) := by
  have hnc : nullCount colNull = 1 := by decide
  have hnr : dfNull.nRows = 3 := by decide
  constructor
  · show [(colSchema dfNull.nRows 5 colNull).null_pct] = _
    rw [hnr]
    show [round4 (if (3:ℕ) = 0 then 0 else ((nullCount colNull : ℚ) / ((3:ℕ) : ℚ)))] = _
    rw [hnc]
    norm_num
    rw [round4_third]
  · rw [hnc, hnr]
    norm_num

/-- Claim C9, amended: `infer_schema` reports `null_ratio` equal to
`null_count / N` rounded half-to-even at four decimal places, and 0.0
(without a division fault) when N = 0. -/
theorem C9_null_ratio_rounded (df : DataFrame) (k : ℕ) (c : Column)
    (hc : c ∈ df.cols) :
    (c.name, colSchema df.nRows k c) ∈ infer_schema df k ∧
    (df.nRows = 0 → (colSchema df.nRows k c).null_pct = 0) ∧
    (df.nRows ≠ 0 →
      (colSchema df.nRows k c).null_pct = round4 ((nullCount c : ℚ) / (df.nRows : ℚ))) := by
  refine ⟨List.mem_map.mpr ⟨c, hc, rfl⟩, ?_, ?_⟩
  · intro h0
    simp only [colSchema, h0, if_true, reduceIte]
    exact round4_zero
  · intro hn
    simp only [colSchema, hn, if_false, reduceIte]

/-- Witness for C9: the one-row no-null frame. -/
theorem C9_amended_witness :
    (colA ∈ dfA.cols) ∧
    (("a", colSchema dfA.nRows 5 colA) ∈ infer_schema dfA 5 ∧
      (dfA.nRows = 0 → (colSchema dfA.nRows 5 colA).null_pct = 0) ∧
      (dfA.nRows ≠ 0 →
        (colSchema dfA.nRows 5 colA).null_pct =
          round4 ((nullCount colA : ℚ) / (dfA.nRows : ℚ)))) :=
  ⟨by decide, C9_null_ratio_rounded dfA 5 colA (by decide)⟩

/-- Claim C10: `outlier_summary` with an explicit numeric_cols list
naming a column absent from the Dataset fails the whole call (the pandas
column lookup raises KeyError) rather than skipping the name or
degrading to a per-column entry. -/
theorem C10_outlier_unknown_column_fails (df : DataFrame) (cols : List String)
    (f : ℚ) (c : String) (hc : c ∈ cols) (habs : df.hasCol c = false) :
    DataValidator.outlier_summary df (some cols) f = Except.error ("column not found") := by
  have hall : cols.all df.hasCol = false := by
    cases hx : cols.all df.hasCol with
    | false => rfl
    | true =>
        rw [List.all_eq_true] at hx
        rw [hx c hc] at habs
        cases habs
  simp [DataValidator.outlier_summary, hall]

/-- Witness for C10: a one-column frame and the unknown name zz. -/
theorem C10_witness :
    ("zz" ∈ ["zz"]) ∧ dfA.hasCol "zz" = false ∧
    DataValidator.outlier_summary dfA (some ["zz"]) (3/2) = Except.error ("column not found") :=
  ⟨by simp, by decide,
    C10_outlier_unknown_column_fails dfA ["zz"] (3/2) "zz" (by simp) (by decide)⟩

end MyToolbox
